import Mathlib

/-!
# Verification of the asset-uploader lifecycle controller

Shallow embedding of `src/main.go` (package `main` of
rchernobelskiy/asset-uploader): identifier reservation, the
reserved→uploaded lifecycle transition, timeout validation and signed-URL
issuance, and the HTTP method gate.  Durations are modelled as `Int`
nanosecond counts (Go's `time.Duration` is an `int64` of nanoseconds) with
64-bit wrap-around made explicit where Go arithmetic can overflow.
The record store and object store are external collaborators reached
through interfaces (`dynamodbiface.DynamoDBAPI`, `s3iface.S3API`); their
responses enter the embedding as explicit arguments, and the record
store's conditional-put semantics is modelled separately for the
state-level claims.
-/

namespace AssetUploader

/-- Constants from `src/main.go` lines 25-30.  `timeSecond`, `timeMinute`
and `timeHour` are Go's `time.Second`, `time.Minute`, `time.Hour` in
nanoseconds. -/
def timeSecond : Int := 1000000000

def timeMinute : Int := 60 * timeSecond

def timeHour : Int := 60 * timeMinute

def assetStatusUploaded : String := "uploaded"

def defaultDownloadTimeout : Int := timeMinute

def maxDownloadTimeout : Int := 24 * timeHour

def uploadTimeout : Int := 24 * timeHour

/-- The AWS SDK constant `dynamodb.ErrCodeConditionalCheckFailedException`. -/
def errCodeConditionalCheckFailedException : String :=
  "ConditionalCheckFailedException"

/-- Errors returned by a store call: either an `awserr.Error` carrying a
code (the only part of it `main.go` inspects) or a generic Go error. -/
inductive DBError where
  | awsErr (code : String)
  | genericErr (msg : String)
deriving DecidableEq, Repr

/-- Two's-complement wrap-around of an integer into the `int64` range,
as Go multiplication of `time.Duration` values behaves. -/
def int64Wrap (n : Int) : Int := (n + 2 ^ 63) % 2 ^ 64 - 2 ^ 63

/-- Go's `strconv.Atoi` on a 64-bit platform: an optional `+`/`-` sign
followed by at least one decimal digit, rejecting values outside the
`int64` range (Go reports `ErrRange`, which the caller treats the same as
a syntax error).  `none` is any non-nil error. -/
def goAtoi (s : String) : Option Int :=
  match s.data with
  | [] => none
  | c :: rest =>
    let digits := if c = '-' ∨ c = '+' then rest else c :: rest
    if digits = [] ∨ ¬ digits.all (fun d => 48 ≤ d.toNat ∧ d.toNat ≤ 57) then
      none
    else
      let n : Nat := digits.foldl (fun a d => a * 10 + (d.toNat - 48)) 0
      let v : Int := if c = '-' then -(n : Int) else (n : Int)
      if v < -(2 ^ 63) ∨ v > 2 ^ 63 - 1 then none else some v

/-- The slice of an HTTP response that the handlers in `main.go` produce:
a status code, the `Allow` header (set only on 405), and the
`Download_url` field of the JSON body (set only on a successful signed
download). -/
structure Response where
  status : Nat
  allow : Option String := none
  downloadURL : Option String := none
deriving DecidableEq, Repr

/-- The `GetItemInput` built by `handleAssetURLRequest`
(`src/main.go` lines 135-143): key, table, and a strongly consistent
read. -/
structure GetItemQuery where
  key : String
  tableName : String
  consistentRead : Bool
deriving DecidableEq, Repr

def assetGetItemQuery (assetID tableName : String) : GetItemQuery :=
  { key := assetID, tableName := tableName, consistentRead := true }

/-- A DynamoDB item as `handleAssetURLRequest` reads it: an attribute map
from names to string (`S`) values. -/
def Item : Type := List (String × String)

/-- Outcome of `req.Presign`: a signed URL or an error.  The handlers see
the object store only through this call, so it enters as a function from
the requested validity (nanoseconds) to the outcome. -/
def Presigner : Type := Int → Except String String

/-- `src/main.go` lines 183-201: presign a download URL for the resolved
timeout; a signing error is a 500, success is a 200 carrying the URL. -/
def signDownload (presign : Presigner) (timeout : Int) : Response :=
  match presign timeout with
  | .error _ => { status := 500 }
  | .ok url => { status := 200, downloadURL := some url }

/-- `handleAssetURLRequest` (`src/main.go` lines 133-202) given the record
store's reply to the `GetItem` call, the raw `timeout` query parameter
(Go's `Query().Get` yields `""` when the parameter is absent), and the
presigner.  `timeout` is computed as
`time.Duration(timeoutSec) * time.Second`, an `int64` multiplication that
wraps. -/
def handleAssetURLRequest (getResult : Except DBError Item) (timeoutStr : String)
    (presign : Presigner) : Response :=
  match getResult with
  | .error _ => { status := 500 }
  | .ok item =>
    if (item.lookup "id").isNone then { status := 404 }
    else if item.lookup "status" ≠ some assetStatusUploaded then { status := 202 }
    else if timeoutStr ≠ "" then
      match goAtoi timeoutStr with
      | none => { status := 400 }
      | some timeoutSec =>
        let timeout := int64Wrap (timeoutSec * timeSecond)
        if timeout < timeSecond ∨ timeout > maxDownloadTimeout then { status := 400 }
        else signDownload presign timeout
    else signDownload presign defaultDownloadTimeout

/-- The JSON body of a mark-uploaded request as `json.Decode` leaves it:
either a decoding error (malformed JSON) or a `markUploadedRequest` value
whose `Status` field is the decoded string (zero value `""` when the key
is absent). -/
inductive BodyParse where
  | malformed
  | parsed (statusField : String)
deriving DecidableEq, Repr

/-- The body validation of `handleMarkUploadedRequest`
(`src/main.go` lines 205-215): malformed JSON or a `Status` other than
`"uploaded"` is a 400, returned before any store call; `none` means the
body passed and the handler proceeds to the conditional put. -/
def markUploadedBodyCheck (body : BodyParse) : Option Response :=
  match body with
  | .malformed => some { status := 400 }
  | .parsed st => if st ≠ assetStatusUploaded then some { status := 400 } else none

/-- Error mapping of `handleMarkUploadedRequest` after the `PutItem` call
(`src/main.go` lines 230-243): a conditional-check failure is a 404, any
other error (AWS-typed or generic) is a 500; no error means the handler
returns with the implicit 200. -/
def classifyMarkPut (putResult : Except DBError Unit) : Response :=
  match putResult with
  | .ok _ => { status := 200 }
  | .error (.awsErr code) =>
    if code = errCodeConditionalCheckFailedException then { status := 404 }
    else { status := 500 }
  | .error (.genericErr _) => { status := 500 }

/-- `handleMarkUploadedRequest` (`src/main.go` lines 204-244) given the
decoded body and the record store's reply to the conditional `PutItem`. -/
def handleMarkUploadedRequest (body : BodyParse) (putResult : Except DBError Unit) :
    Response :=
  match markUploadedBodyCheck body with
  | some resp => resp
  | none => classifyMarkPut putResult

/-- An asset record as persisted in the table: the `status` attribute is
present (with its `S` value) or absent; the `id` attribute is the key. -/
structure AssetRecord where
  status : Option String
deriving DecidableEq, Repr

/-- The record store's table keyed by asset id. -/
def Table : Type := String → Option AssetRecord

/-- The record-store collaborator's conditional write for the `PutItem`
built at `src/main.go` lines 218-229: item `{id, status: "uploaded"}`
guarded by `attribute_exists(id)`.  Per DynamoDB semantics a failed
condition leaves the table unchanged and reports
`ConditionalCheckFailedException`; a successful put replaces the item. -/
def putItemCondExists (t : Table) (assetID : String) : Except DBError Unit × Table :=
  match t assetID with
  | none => (.error (.awsErr errCodeConditionalCheckFailedException), t)
  | some _ =>
    (.ok (), fun k => if k = assetID then some { status := some assetStatusUploaded } else t k)

/-- `handleMarkUploadedRequest` composed with the record store semantics:
the response together with the table after the request. -/
def markUploadedOnTable (body : BodyParse) (t : Table) (assetID : String) :
    Response × Table :=
  match markUploadedBodyCheck body with
  | some resp => (resp, t)
  | none =>
    let pr := putItemCondExists t assetID
    (classifyMarkPut pr.1, pr.2)

/-- One iteration of `reserveUniqueID`'s loop draws a fresh random
candidate id and receives the store's reply to the conditional
`PutItem` guarded by `attribute_not_exists(id)`
(`src/main.go` lines 50-74).  The sequence of draws and replies enters
as an oracle from the iteration index. -/
def ReserveAttempts : Type := Nat → String × Except DBError Unit

/-- The loop of `reserveUniqueID` (`src/main.go` lines 49-78): `i` is the
loop counter, `fuel` the remaining iterations (`for i := 0; i <= 10`
gives 11), `lastError` the last store error seen.  Any put error — of any
kind — is recorded and the loop continues; a successful put returns the
candidate id. -/
def reserveLoop (attempts : ReserveAttempts) : Nat → Nat → Option DBError →
    String × Option DBError
  | _, 0, lastError => ("", lastError)
  | i, fuel + 1, _ =>
    let (id, res) := attempts i
    match res with
    | .ok _ => (id, none)
    | .error e => reserveLoop attempts (i + 1) fuel (some e)

/-- `reserveUniqueID` (`src/main.go` lines 46-82): up to 11 attempts; on
exhaustion an empty id and the last error. -/
def reserveUniqueID (attempts : ReserveAttempts) : String × Option DBError :=
  reserveLoop attempts 0 11 none

/-- `checkMethod` (`src/main.go` lines 85-94): `none` when the request
method is among the allowed ones; otherwise the 405 response carrying the
`Allow` header, the methods joined by `", "`. -/
def checkMethod (method : String) (methods : List String) : Option Response :=
  if methods.any (fun m => m = method) then none
  else some { status := 405, allow := some (String.intercalate ", " methods) }

/-- `initAsset` (`src/main.go` lines 97-130) as far as the method gate:
only `POST` reaches the reservation-and-presign body, supplied here as
`onPost`. -/
def initAsset (method : String) (onPost : Response) : Response :=
  match checkMethod method ["POST"] with
  | some resp => resp
  | none => onPost

/-- `manageAsset` (`src/main.go` lines 246-257): only `GET` and `PUT`
pass the gate and reach the respective handler, supplied here as values;
falling through both branches leaves the implicit 200 (unreachable once
the gate passed). -/
def manageAsset (method : String) (onGet onPut : Response) : Response :=
  match checkMethod method ["GET", "PUT"] with
  | some resp => resp
  | none =>
    if method = "GET" then onGet
    else if method = "PUT" then onPut
    else { status := 200 }

/-! ## Concrete fixtures used by witnesses and counterexamples -/

/-- A record with the uploaded marker as `GetItem` returns it. -/
def uploadedItem : Item := [("id", "x"), ("status", "uploaded")]

/-- A presigner that reports the validity window it was asked for, so
theorems can observe the duration the handler resolves. -/
def echoPresign : Presigner := fun d => .ok (toString d)

/-- Attempt oracle whose first conditional insert fails with a generic
(non-collision) store failure and whose second succeeds. -/
def oneGenericFailureAttempts : ReserveAttempts
  | 0 => ("id0", .error (.genericErr "network"))
  | _ => ("id1", .ok ())

/-- Attempt oracle whose first two inserts collide and whose third
succeeds. -/
def twoCollisionsAttempts : ReserveAttempts
  | 2 => ("win", .ok ())
  | _ => ("lose", .error (.awsErr errCodeConditionalCheckFailedException))

/-- Attempt oracle whose every insert fails with the same generic
failure. -/
def allFailAttempts : ReserveAttempts :=
  fun _ => ("x", .error (.genericErr "boom"))

/-- A table holding exactly one record, id `"a"`, already uploaded. -/
def sampleTable : Table :=
  fun k => if k = "a" then some { status := some assetStatusUploaded } else none

/-! ## Lemmas about the reservation loop -/

/-- If every attempt in the remaining window fails, the loop exhausts its
fuel and reports the error of the last attempt. -/
theorem reserveLoop_exhaust (attempts : ReserveAttempts) :
    ∀ (fuel i : Nat) (last : Option DBError) (e : DBError),
      (∀ j, j < fuel → ∃ e0, (attempts (i + j)).2 = Except.error e0) →
      (attempts (i + fuel)).2 = Except.error e →
      reserveLoop attempts i (fuel + 1) last = ("", some e) := by
  intro fuel
  induction fuel with
  | zero =>
    intro i last e _ hlast
    rw [Nat.add_zero] at hlast
    rcases hA : attempts i with ⟨cid, cres⟩
    rw [hA] at hlast
    simp at hlast
    simp [reserveLoop, hA, hlast]
  | succ n ih =>
    intro i last e hall hlast
    obtain ⟨e0, he0⟩ := hall 0 (Nat.succ_pos n)
    rw [Nat.add_zero] at he0
    rcases hA : attempts i with ⟨cid, cres⟩
    rw [hA] at he0
    simp at he0
    have step := ih (i + 1) (some e0) e
      (fun j hj => by
        have := hall (j + 1) (Nat.succ_lt_succ hj)
        rwa [show i + (j + 1) = i + 1 + j by omega] at this)
      (by rwa [show i + 1 + n = i + (n + 1) by omega])
    simpa [reserveLoop, hA, he0] using step

/-- If attempt `k` succeeds after `k` failed attempts and `k` is within
the fuel, the loop returns attempt `k`'s candidate id and no error. -/
theorem reserveLoop_success (attempts : ReserveAttempts) :
    ∀ (k fuel i : Nat) (last : Option DBError),
      k < fuel →
      (∀ j, j < k → ∃ e0, (attempts (i + j)).2 = Except.error e0) →
      (attempts (i + k)).2 = Except.ok () →
      reserveLoop attempts i fuel last = ((attempts (i + k)).1, none) := by
  intro k
  induction k with
  | zero =>
    intro fuel i last hk _ hok
    match fuel, hk with
    | fuel + 1, _ =>
      rcases hA : attempts i with ⟨cid, cres⟩
      rw [Nat.add_zero, hA] at hok
      simp at hok
      simp [reserveLoop, hA, hok, Nat.add_zero]
  | succ n ih =>
    intro fuel i last hk hfail hok
    match fuel, hk with
    | fuel + 1, hk =>
      obtain ⟨e0, he0⟩ := hfail 0 (Nat.succ_pos n)
      rw [Nat.add_zero] at he0
      rcases hA : attempts i with ⟨cid, cres⟩
      rw [hA] at he0
      simp at he0
      have step := ih fuel (i + 1) (some e0) (Nat.lt_of_succ_lt_succ hk)
        (fun j hj => by
          have := hfail (j + 1) (Nat.succ_lt_succ hj)
          rwa [show i + (j + 1) = i + 1 + j by omega] at this)
        (by rwa [show i + (n + 1) = i + 1 + n by omega] at hok)
      rw [show i + (n + 1) = i + 1 + n by omega]
      simpa [reserveLoop, hA, he0] using step

/-! ## Claim theorems -/

/-- C1 (counterexample): the claim says a non-collision store failure
(here a generic network error on attempt 0) makes `reserveUniqueID` abort
immediately and return that error with no further insert attempts — that
would yield `("", some (genericErr "network"))`.  The code instead
continues to attempt 1, which succeeds, and returns its id. -/
theorem reserve_abort_on_generic_failure_cex :
    reserveUniqueID oneGenericFailureAttempts = ("id1", none)
    ∧ reserveUniqueID oneGenericFailureAttempts
      ≠ ("", some (DBError.genericErr "network")) := by
  constructor
  · decide
  · decide

/-- C1 (amended): a conditional insert failure of any kind — collision or
generic — is recorded as the last error and retried with a fresh
candidate; a failure on attempt 0 followed by a success on attempt 1
yields attempt 1's id and no error, rather than aborting. -/
theorem reserve_retries_any_failure (attempts : ReserveAttempts) (e : DBError)
    (h0 : (attempts 0).2 = Except.error e) (h1 : (attempts 1).2 = Except.ok ()) :
    reserveUniqueID attempts = ((attempts 1).1, none) := by
  have := reserveLoop_success attempts 1 11 0 none (by omega)
    (fun j hj => by
      have hj0 : j = 0 := by omega
      exact ⟨e, by simpa [hj0] using h0⟩)
    (by simpa using h1)
  simpa [reserveUniqueID] using this

/-- C1 witness: with a generic failure on attempt 0 and a success on
attempt 1, reservation returns attempt 1's id. -/
theorem reserve_retries_any_failure_witness :
    reserveUniqueID oneGenericFailureAttempts = ("id1", none) :=
  reserve_retries_any_failure oneGenericFailureAttempts
    (DBError.genericErr "network") rfl rfl

/-- C2: the reservation makes at most 11 conditional insert attempts; if
all 11 fail it returns an empty id and the last attempt's error, and if
attempt `k` (`k ≤ 10`) succeeds after `k` failures it returns attempt
`k`'s id and no error. -/
theorem reserve_bounded_attempts (attempts : ReserveAttempts) :
    ((∀ i, i ≤ 10 → ∃ e, (attempts i).2 = Except.error e) →
      ∀ e, (attempts 10).2 = Except.error e →
        reserveUniqueID attempts = ("", some e))
    ∧ (∀ k, k ≤ 10 → (∀ i, i < k → ∃ e, (attempts i).2 = Except.error e) →
        (attempts k).2 = Except.ok () →
        reserveUniqueID attempts = ((attempts k).1, none)) := by
  constructor
  · intro hall e hlast
    have := reserveLoop_exhaust attempts 10 0 none e
      (fun j hj => by simpa using hall j (by omega))
      (by simpa using hlast)
    simpa [reserveUniqueID] using this
  · intro k hk hfail hok
    have := reserveLoop_success attempts k 11 0 none (by omega)
      (fun j hj => by simpa using hfail j hj)
      (by simpa using hok)
    simpa [reserveUniqueID] using this

/-- C2 witness: with every attempt failing generically, reservation
returns an empty id and the last failure; with two collisions followed by
a success on attempt 2, it returns attempt 2's id and no error. -/
theorem reserve_bounded_attempts_witness :
    reserveUniqueID allFailAttempts = ("", some (DBError.genericErr "boom"))
    ∧ reserveUniqueID twoCollisionsAttempts = ("win", none) := by
  constructor
  · exact (reserve_bounded_attempts allFailAttempts).1
      (fun i _ => ⟨DBError.genericErr "boom", rfl⟩)
      (DBError.genericErr "boom") rfl
  · exact (reserve_bounded_attempts twoCollisionsAttempts).2 2 (by omega)
      (fun i hi => ⟨DBError.awsErr errCodeConditionalCheckFailedException, by
        match i, hi with
        | 0, _ => rfl
        | 1, _ => rfl⟩)
      rfl

/-- C3 (code evaluated at the failing input): the documented rejection
vectors behave as claimed — `0`, `-5`, `86401` and `"abc"` are 400 and
`1` and `86400` are accepted — but the bound check runs on the `int64`
product `timeoutSec * time.Second`, which wraps: `timeout=18446744075`
(about 584 years in seconds) overflows to `1290448384` ns (≈1.29 s),
passes the `[1s, 24h]` check, and is accepted with a 200 and a URL signed
for that wrapped validity, where the claim requires a 400. -/
theorem downloadTimeout_overflow_bug :
    handleAssetURLRequest (.ok uploadedItem) "18446744075" echoPresign
      = { status := 200, downloadURL := some "1290448384" }
    ∧ handleAssetURLRequest (.ok uploadedItem) "0" echoPresign = { status := 400 }
    ∧ handleAssetURLRequest (.ok uploadedItem) "-5" echoPresign = { status := 400 }
    ∧ handleAssetURLRequest (.ok uploadedItem) "86401" echoPresign = { status := 400 }
    ∧ handleAssetURLRequest (.ok uploadedItem) "abc" echoPresign = { status := 400 }
    ∧ handleAssetURLRequest (.ok uploadedItem) "1" echoPresign
      = { status := 200, downloadURL := some "1000000000" }
    ∧ handleAssetURLRequest (.ok uploadedItem) "86400" echoPresign
      = { status := 200, downloadURL := some "86400000000000" } := by
  refine ⟨?_, ?_, ?_, ?_, ?_, ?_, ?_⟩ <;> decide

/-- C4: the download handler reads the record with a strongly consistent
`GetItem` and maps each state to one outcome: a store error is a 500, an
item without the `id` attribute is a 404, an item without the uploaded
marker is a 202, and an item with the marker (with no timeout supplied
and a successful presign) is a 200 carrying the signed URL. -/
theorem assetURL_state_classification (assetID tbl : String) :
    (assetGetItemQuery assetID tbl).consistentRead = true
    ∧ (∀ (e : DBError) (ts : String) (p : Presigner),
        handleAssetURLRequest (.error e) ts p = { status := 500 })
    ∧ (∀ (item : Item) (ts : String) (p : Presigner),
        item.lookup "id" = none →
        handleAssetURLRequest (.ok item) ts p = { status := 404 })
    ∧ (∀ (item : Item) (ts : String) (p : Presigner),
        (item.lookup "id").isSome →
        item.lookup "status" ≠ some assetStatusUploaded →
        handleAssetURLRequest (.ok item) ts p = { status := 202 })
    ∧ (∀ (item : Item) (p : Presigner) (url : String),
        (item.lookup "id").isSome →
        item.lookup "status" = some assetStatusUploaded →
        p defaultDownloadTimeout = .ok url →
        handleAssetURLRequest (.ok item) "" p
          = { status := 200, downloadURL := some url }) := by
  refine ⟨rfl, ?_, ?_, ?_, ?_⟩
  · intro e ts p
    rfl
  · intro item ts p h
    simp [handleAssetURLRequest, h]
  · intro item ts p h1 h2
    rw [Option.isSome_iff_exists] at h1
    obtain ⟨v, hv⟩ := h1
    simp [handleAssetURLRequest, hv, h2]
  · intro item p url h1 h2 hp
    rw [Option.isSome_iff_exists] at h1
    obtain ⟨v, hv⟩ := h1
    simp [handleAssetURLRequest, hv, h2, signDownload, hp]

/-- C4 witness: an empty item is a 404, an item with only `id` is a 202,
and the uploaded item with no timeout parameter is a 200 carrying the URL
presigned for the default validity. -/
theorem assetURL_state_classification_witness :
    handleAssetURLRequest (.ok ([] : Item)) "abc" echoPresign = { status := 404 }
    ∧ handleAssetURLRequest (.ok [("id", "x")]) "abc" echoPresign = { status := 202 }
    ∧ handleAssetURLRequest (.ok uploadedItem) "" echoPresign
      = { status := 200, downloadURL := some "60000000000" } :=
  ⟨(assetURL_state_classification "x" "assets").2.2.1 [] "abc" echoPresign rfl,
   (assetURL_state_classification "x" "assets").2.2.2.1 [("id", "x")] "abc"
     echoPresign (by decide) (by decide),
   (assetURL_state_classification "x" "assets").2.2.2.2 uploadedItem
     echoPresign "60000000000" (by decide) (by decide) rfl⟩

/-- C5: the uploaded-status write is guarded by existence of the record —
the conditional put fails (leaving the table unchanged) exactly when no
record exists, and succeeds writing the uploaded status otherwise — and
the handler maps a conditional-check failure to a 404 and every other
store error to a 500, never to a 404. -/
theorem markUploaded_error_mapping (t : Table) (assetID : String) :
    (t assetID = none →
      putItemCondExists t assetID
        = (.error (.awsErr errCodeConditionalCheckFailedException), t))
    ∧ (∀ r, t assetID = some r →
        (putItemCondExists t assetID).1 = .ok ()
        ∧ (putItemCondExists t assetID).2 assetID
          = some { status := some assetStatusUploaded })
    ∧ handleMarkUploadedRequest (.parsed assetStatusUploaded)
        (.error (.awsErr errCodeConditionalCheckFailedException)) = { status := 404 }
    ∧ (∀ e, e ≠ DBError.awsErr errCodeConditionalCheckFailedException →
        handleMarkUploadedRequest (.parsed assetStatusUploaded) (.error e)
          = { status := 500 }) := by
  refine ⟨?_, ?_, ?_, ?_⟩
  · intro h
    simp [putItemCondExists, h]
  · intro r h
    simp [putItemCondExists, h]
  · rfl
  · intro e he
    match e with
    | .genericErr m => rfl
    | .awsErr code =>
      have hc : code ≠ errCodeConditionalCheckFailedException := by
        intro hco
        exact he (by rw [hco])
      simp [handleMarkUploadedRequest, markUploadedBodyCheck, classifyMarkPut,
        assetStatusUploaded, hc]

/-- C5 witness: on a table without the id the conditional put reports the
conditional-check failure and leaves the table as it was, and a generic
store error on the put is a 500. -/
theorem markUploaded_error_mapping_witness :
    putItemCondExists sampleTable "b"
      = (.error (.awsErr errCodeConditionalCheckFailedException), sampleTable)
    ∧ handleMarkUploadedRequest (.parsed assetStatusUploaded)
        (.error (.genericErr "net")) = { status := 500 } :=
  ⟨(markUploaded_error_mapping sampleTable "b").1 (by decide),
   (markUploaded_error_mapping sampleTable "b").2.2.2 (.genericErr "net")
     (by decide)⟩

/-- C6: marking an id whose record already carries the uploaded status
succeeds with the implicit 200 and leaves the record with the same
uploaded status, because the put condition checks only existence. -/
theorem markUploaded_idempotent (t : Table) (assetID : String)
    (h : t assetID = some { status := some assetStatusUploaded }) :
    (markUploadedOnTable (.parsed assetStatusUploaded) t assetID).1
      = { status := 200 }
    ∧ (markUploadedOnTable (.parsed assetStatusUploaded) t assetID).2 assetID
      = some { status := some assetStatusUploaded } := by
  constructor
  · simp [markUploadedOnTable, markUploadedBodyCheck, putItemCondExists,
      classifyMarkPut, h]
  · simp [markUploadedOnTable, markUploadedBodyCheck, putItemCondExists,
      classifyMarkPut, h]

/-- C6 witness: re-marking the already-uploaded record `"a"` of the
sample table is a 200 and the record keeps the uploaded status. -/
theorem markUploaded_idempotent_witness :
    (markUploadedOnTable (.parsed assetStatusUploaded) sampleTable "a").1
      = { status := 200 }
    ∧ (markUploadedOnTable (.parsed assetStatusUploaded) sampleTable "a").2 "a"
      = some { status := some assetStatusUploaded } :=
  markUploaded_idempotent sampleTable "a" (by decide)

/-- C7: a malformed body or a `Status` other than `"uploaded"` is
rejected with a 400 and the table is untouched — no store write happens —
and only the body with `Status` exactly `"uploaded"` passes the body
check and proceeds to the conditional put. -/
theorem markUploaded_body_validation (t : Table) (assetID st : String) :
    markUploadedOnTable .malformed t assetID = ({ status := 400 }, t)
    ∧ (st ≠ assetStatusUploaded →
        markUploadedOnTable (.parsed st) t assetID = ({ status := 400 }, t))
    ∧ markUploadedBodyCheck (.parsed assetStatusUploaded) = none := by
  refine ⟨rfl, ?_, rfl⟩
  intro h
  simp [markUploadedOnTable, markUploadedBodyCheck, h]

/-- C7 witness: the body `{"Status":"other"}` is a 400 on the sample
table and leaves it unchanged. -/
theorem markUploaded_body_validation_witness :
    markUploadedOnTable (.parsed "other") sampleTable "a"
      = ({ status := 400 }, sampleTable) :=
  (markUploaded_body_validation sampleTable "a" "other").2.1 (by decide)

/-- C8: when no timeout parameter is supplied (Go reads the absent query
parameter as `""`), the download URL for an uploaded asset is presigned
with `defaultDownloadTimeout`, which is 60 seconds. -/
theorem default_timeout_sixty_seconds (item : Item) (p : Presigner)
    (h1 : (item.lookup "id").isSome)
    (h2 : item.lookup "status" = some assetStatusUploaded) :
    handleAssetURLRequest (.ok item) "" p = signDownload p defaultDownloadTimeout
    ∧ defaultDownloadTimeout = 60 * timeSecond := by
  constructor
  · rw [Option.isSome_iff_exists] at h1
    obtain ⟨v, hv⟩ := h1
    simp [handleAssetURLRequest, hv, h2]
  · rfl

/-- C8 witness: the uploaded item with no timeout parameter yields the
URL presigned for 60000000000 ns = 60 s. -/
theorem default_timeout_sixty_seconds_witness :
    handleAssetURLRequest (.ok uploadedItem) "" echoPresign
      = signDownload echoPresign defaultDownloadTimeout
    ∧ defaultDownloadTimeout = 60 * timeSecond :=
  default_timeout_sixty_seconds uploadedItem echoPresign (by decide) (by decide)

/-- C9: a method other than POST on `/asset`, or other than GET/PUT on
`/asset/{id}`, is answered with a 405 carrying an `Allow` header that
joins exactly the permitted methods, independently of the handler bodies
(no further processing). -/
theorem method_gate_allow_header (m : String) (onPost onGet onPut : Response) :
    (m ≠ "POST" →
      initAsset m onPost = { status := 405, allow := some "POST" })
    ∧ (m ≠ "GET" → m ≠ "PUT" →
      manageAsset m onGet onPut = { status := 405, allow := some "GET, PUT" }) := by
  constructor
  · intro h
    have h1 : ("POST" = m) = False := by
      simp [eq_comm, h]
    simp [initAsset, checkMethod, h1]
    decide
  · intro hg hp
    have h1 : ("GET" = m) = False := by
      simp [eq_comm, hg]
    have h2 : ("PUT" = m) = False := by
      simp [eq_comm, hp]
    simp [manageAsset, checkMethod, h1, h2]
    decide

/-- C9 witness: `DELETE` on either path is a 405 with the `Allow` header
listing the permitted methods. -/
theorem method_gate_allow_header_witness :
    initAsset "DELETE" { status := 200 } = { status := 405, allow := some "POST" }
    ∧ manageAsset "DELETE" { status := 200 } { status := 200 }
      = { status := 405, allow := some "GET, PUT" } :=
  ⟨(method_gate_allow_header "DELETE" { status := 200 } { status := 200 }
      { status := 200 }).1 (by decide),
   (method_gate_allow_header "DELETE" { status := 200 } { status := 200 }
      { status := 200 }).2 (by decide) (by decide)⟩

/-- C10: the timeout parameter is inspected only after the state check:
whatever the supplied timeout string — including invalid ones — an item
without the `id` attribute is a 404 and an item without the uploaded
marker is a 202, never a timeout 400. -/
theorem timeout_checked_after_state (item : Item) (ts : String) (p : Presigner) :
    (item.lookup "id" = none →
      handleAssetURLRequest (.ok item) ts p = { status := 404 })
    ∧ ((item.lookup "id").isSome →
        item.lookup "status" ≠ some assetStatusUploaded →
        handleAssetURLRequest (.ok item) ts p = { status := 202 }) := by
  constructor
  · intro h
    simp [handleAssetURLRequest, h]
  · intro h1 h2
    rw [Option.isSome_iff_exists] at h1
    obtain ⟨v, hv⟩ := h1
    simp [handleAssetURLRequest, hv, h2]

/-- C10 witness: with the invalid timeout `"abc"`, an unknown id is still
a 404 and a reserved-but-not-uploaded id is still a 202. -/
theorem timeout_checked_after_state_witness :
    handleAssetURLRequest (.ok ([] : Item)) "abc" echoPresign = { status := 404 }
    ∧ handleAssetURLRequest (.ok [("id", "y")]) "abc" echoPresign
      = { status := 202 } :=
  ⟨(timeout_checked_after_state [] "abc" echoPresign).1 rfl,
   (timeout_checked_after_state [("id", "y")] "abc" echoPresign).2
     (by decide) (by decide)⟩

end AssetUploader
